import Mathlib

/-!
Verification development for the seat-reservation and checkout engine of the
`brooderfarms/backend` ticket-sales service.

The definitions below are a shallow embedding of the JavaScript source:

* `src/routes/seats.js` — the `/api/seats/reserve` and `/api/seats/confirm`
  route handlers (`reserveSeats`, `confirmSeats`);
* `src/services/cartCheckoutService.js` — `CartService`
  (`removeFromCart`, `updateQuantity`, `calculateCartTotal`) and
  `CheckoutService` (`initiateCheckout`, `completeCheckout`, `cancelCheckout`);
* `src/services/emailService.js` — `GuestCheckoutService`
  (`createGuestCart`, `completeGuestCheckout`, `getGuestTickets`,
  `cleanupExpiredCheckouts`, `generateConfirmationCode`);
* `src/routes/guest.js` — the add-item-to-guest-cart route
  (`addGuestCartItem`);
* `src/services/zimPaymentService.js` — the fraud gate
  (`gatewayConfig`, `checkAmountRange`, `performFraudChecks`,
  `verifyPaymentVerdict`).

Database tables become lists of records inside one `AppState`; a knex
`.first()` becomes `List.find?`, `.update` a `List.map` over the matching
rows, `.insert` an append, `.sum` a list sum.  Monetary amounts are `Rat`.
Route handlers that respond with an HTTP error become `Except` errors; an
`Except.error` outcome carries no state, mirroring the fact that the handler
returned before performing any database write.
-/

namespace BrooderSpec

/-- Status column of the `seats` table. -/
inductive SeatStatus
  | available
  | reserved
  | sold
  deriving DecidableEq, Inhabited

/-- One row of the `seats` table. -/
structure Seat where
  id : Nat
  event_id : Nat
  status : SeatStatus := .available
  price : Option Rat := none
  reserved_by : Option Nat := none
  reservation_id : Option Nat := none
  sold_by : Option Nat := none
  payment_id : Option Nat := none
  deleted : Bool := false
  deriving DecidableEq, Inhabited

/-- Status column of the `seat_reservations` table. -/
inductive ReservationStatus
  | pending
  | released
  | confirmed
  | expired
  deriving DecidableEq, Inhabited

/-- One row of the `seat_reservations` table; `seat_ids` is stored as a JSON
array in the source and modelled as the parsed list. -/
structure SeatReservation where
  id : Nat
  event_id : Nat
  user_id : Nat
  seat_ids : List Nat
  status : ReservationStatus := .pending
  expires_at : Nat := 0
  payment_id : Option Nat := none
  deriving DecidableEq, Inhabited

/-- Status column of the `payments` table. -/
inductive PaymentStatus
  | pending
  | processing
  | completed
  | failed
  | refunded
  deriving DecidableEq, Inhabited

/-- One row of the `payments` table (only the columns the embedded
operations read). -/
structure Payment where
  id : Nat
  user_id : Option Nat := none
  status : PaymentStatus := .pending
  amount : Rat := 0
  payment_method : String := ""
  deriving DecidableEq, Inhabited

/-- One row of the `events` table (only the columns the embedded operations
read or write). -/
structure Event where
  id : Nat
  min_price : Option Rat := none
  sold_tickets : Int := 0
  available_tickets : Int := 0
  deleted : Bool := false
  deriving DecidableEq, Inhabited

/-- Status column of the `shopping_carts` table. -/
inductive CartStatus
  | active
  | completed
  | expired
  deriving DecidableEq, Inhabited

/-- One row of the `shopping_carts` table.  `total_amount` is nullable: a
freshly created cart has no total until the first item write. -/
structure Cart where
  id : Nat
  user_id : Option Nat := none
  is_guest : Bool := false
  status : CartStatus := .active
  total_amount : Option Rat := none
  discount_amount : Option Rat := none
  expires_at : Nat := 0
  deriving DecidableEq, Inhabited

/-- One row of the `shopping_cart_items` table.  `seat_numbers` holds the raw
JSON string exactly as the database does; `subtotal` is the column written
only by `CartService.updateQuantity`. -/
structure CartItem where
  id : Nat
  cart_id : Nat
  event_id : Nat
  seat_numbers : Option String := none
  ticket_type : String := "general"
  quantity : Nat := 1
  unit_price : Rat := 0
  total_price : Rat := 0
  subtotal : Option Rat := none
  deriving DecidableEq, Inhabited

/-- Status column of the `checkouts` table. -/
inductive CheckoutStatus
  | pending
  | completed
  | cancelled
  | expired
  deriving DecidableEq, Inhabited

/-- One row of the `checkouts` table. -/
structure Checkout where
  id : Nat
  user_id : Option Nat := none
  cart_id : Nat
  is_guest : Bool := false
  confirmation_code : Option String := none
  subtotal : Rat := 0
  discount_amount : Rat := 0
  total_amount : Rat := 0
  status : CheckoutStatus := .pending
  order_id : Option Nat := none
  expires_at : Nat := 0
  deriving DecidableEq, Inhabited

/-- One row of the `orders` table. -/
structure Order where
  id : Nat
  user_id : Option Nat := none
  checkout_id : Option Nat := none
  payment_id : Option Nat := none
  subtotal : Rat := 0
  discount_amount : Rat := 0
  total_amount : Rat := 0
  status : String := "confirmed"
  is_guest : Bool := false
  guest_email : Option String := none
  confirmation_code : Option String := none
  deriving DecidableEq, Inhabited

/-- One row of the `tickets` table (the fields the checkout paths pass to
`ticketService.createTicket`). -/
structure Ticket where
  event_id : Nat
  order_id : Option Nat := none
  ticket_type : String := "general"
  price : Option Rat := none
  status : String := "confirmed"
  seat_number : Option String := none
  user_id : Option Nat := none
  deriving DecidableEq, Inhabited

/-- The relational store: one list per table touched by the embedded
operations. -/
structure AppState where
  events : List Event := []
  seats : List Seat := []
  seatReservations : List SeatReservation := []
  payments : List Payment := []
  shoppingCarts : List Cart := []
  cartItems : List CartItem := []
  checkouts : List Checkout := []
  orders : List Order := []
  tickets : List Ticket := []
  deriving DecidableEq, Inhabited

/-! ## Seat routes (`src/routes/seats.js`) -/

/-- Errors surfaced by the seat route handlers. -/
inductive SeatsError
  | badRequest
  | eventNotFound
  | seatUnavailable (availableSeatsCount requestedSeatsCount : Nat)
  | reservationNotFound
  | paymentNotFound
  | paymentNotCompleted
  deriving DecidableEq, Inhabited

/-- Successful response body of `POST /api/seats/reserve`. -/
structure ReserveResult where
  reservationId : Nat
  expiresAt : Nat
  totalSeatsReserved : Nat
  totalPrice : Rat
  deriving DecidableEq, Inhabited

/-- Successful response body of `POST /api/seats/confirm`. -/
structure ConfirmResult where
  confirmedSeatsCount : Nat
  reservationId : Nat
  paymentId : Nat
  deriving DecidableEq, Inhabited

/-- The `events` lookup every handler performs:
`db('events').where('id', eventId).whereNull('deleted_at').first()`. -/
def findEvent (s : AppState) (eventId : Nat) : Option Event :=
  s.events.find? fun e => decide (e.id = eventId ∧ e.deleted = false)

/-- The availability query of the reserve handler:
`db('seats').whereIn('id', seatIds).where('event_id', eventId)
.where('status', 'available').whereNull('deleted_at')`. -/
def availableSeatFilter (eventId : Nat) (seatIds : List Nat) (st : Seat) : Bool :=
  decide (st.id ∈ seatIds ∧ st.event_id = eventId ∧
    st.status = SeatStatus.available ∧ st.deleted = false)

/-- `POST /api/seats/reserve` (seats.js lines 261-359).  Validates input and
event, loads the available rows among `seatIds`, rejects with the
available/requested counts when the row count differs from the request list
length, otherwise inserts a pending reservation expiring in 15 minutes and
marks every requested seat reserved. -/
def reserveSeats (s : AppState) (eventId userId : Nat) (seatIds : List Nat)
    (reservationId now : Nat) : Except SeatsError (AppState × ReserveResult) :=
  if seatIds.isEmpty then .error .badRequest
  else
    match findEvent s eventId with
    | none => .error .eventNotFound
    | some _ =>
      let seatsToReserve := s.seats.filter (availableSeatFilter eventId seatIds)
      if seatsToReserve.length ≠ seatIds.length then
        .error (.seatUnavailable seatsToReserve.length seatIds.length)
      else
        let expiresAt := now + 15 * 60 * 1000
        let reservation : SeatReservation :=
          { id := reservationId
            event_id := eventId
            user_id := userId
            seat_ids := seatIds
            status := .pending
            expires_at := expiresAt }
        let seats' := s.seats.map fun st =>
          if st.id ∈ seatIds then
            { st with
              status := SeatStatus.reserved
              reserved_by := some userId
              reservation_id := some reservationId }
          else st
        .ok ({ s with
               seatReservations := s.seatReservations ++ [reservation]
               seats := seats' },
             { reservationId := reservationId
               expiresAt := expiresAt
               totalSeatsReserved := seatIds.length
               totalPrice := (seatsToReserve.map fun st => st.price.getD 0).sum })

/-- `POST /api/seats/confirm` (seats.js lines 446-541).  Looks up the
reservation by id and user, the payment by id and user, requires the payment
to be `completed`, then marks the reservation's seats sold and the
reservation confirmed.  The handler never inspects the reservation's own
status or `expires_at`. -/
def confirmSeats (s : AppState) (userId reservationId paymentId : Nat) :
    Except SeatsError (AppState × ConfirmResult) :=
  match s.seatReservations.find? fun r =>
      decide (r.id = reservationId ∧ r.user_id = userId) with
  | none => .error .reservationNotFound
  | some reservation =>
    match s.payments.find? fun p =>
        decide (p.id = paymentId ∧ p.user_id = some userId) with
    | none => .error .paymentNotFound
    | some payment =>
      if payment.status ≠ PaymentStatus.completed then .error .paymentNotCompleted
      else
        let seatIds := reservation.seat_ids
        let seats' := s.seats.map fun st =>
          if st.id ∈ seatIds then
            { st with
              status := SeatStatus.sold
              sold_by := some userId
              payment_id := some paymentId
              reservation_id := none }
          else st
        let reservations' := s.seatReservations.map fun r =>
          if r.id = reservationId then
            { r with
              status := ReservationStatus.confirmed
              payment_id := some paymentId }
          else r
        .ok ({ s with
               seats := seats'
               seatReservations := reservations' },
             { confirmedSeatsCount := seatIds.length
               reservationId := reservationId
               paymentId := paymentId })

/-! ## Helper lemmas on list cardinalities -/

/-- A filtered list of seats whose ids are drawn from `ids` minus one
mandatory member `x` of `ids` is strictly shorter than `ids`, provided the
seat table has primary-key-unique ids. -/
theorem length_filter_lt_of_excluded (l : List Seat) (P : Seat → Bool)
    (ids : List Nat) (x : Nat)
    (hnd : (l.map Seat.id).Nodup) (hmem : x ∈ ids)
    (hsub : ∀ st ∈ l, P st = true → st.id ∈ ids ∧ st.id ≠ x) :
    (l.filter P).length < ids.length := by
  have hsl : List.Sublist ((l.filter P).map Seat.id) (l.map Seat.id) :=
    List.Sublist.map Seat.id (List.filter_sublist l)
  have hnd' : ((l.filter P).map Seat.id).Nodup := List.Nodup.sublist hsl hnd
  have hsubset : ((l.filter P).map Seat.id).toFinset ⊆ ids.toFinset.erase x := by
    intro y hy
    rw [List.mem_toFinset, List.mem_map] at hy
    obtain ⟨st, hst, rfl⟩ := hy
    rw [List.mem_filter] at hst
    obtain ⟨hstl, hstP⟩ := hst
    obtain ⟨hin, hne⟩ := hsub st hstl hstP
    exact Finset.mem_erase.mpr ⟨hne, List.mem_toFinset.mpr hin⟩
  calc (l.filter P).length
      = ((l.filter P).map Seat.id).length := (List.length_map _ _).symm
    _ = ((l.filter P).map Seat.id).toFinset.card :=
        (List.toFinset_card_of_nodup hnd').symm
    _ ≤ (ids.toFinset.erase x).card := Finset.card_le_card hsubset
    _ < ids.toFinset.card :=
        Finset.card_erase_lt_of_mem (List.mem_toFinset.mpr hmem)
    _ ≤ ids.length := ids.toFinset_card_le

/-- A filtered list of seats whose ids are drawn from a list `ids` that
contains duplicates is strictly shorter than `ids`, provided the seat table
has primary-key-unique ids. -/
theorem length_filter_lt_of_dup (l : List Seat) (P : Seat → Bool)
    (ids : List Nat)
    (hnd : (l.map Seat.id).Nodup) (hdup : ¬ ids.Nodup)
    (hsub : ∀ st ∈ l, P st = true → st.id ∈ ids) :
    (l.filter P).length < ids.length := by
  have hsl : List.Sublist ((l.filter P).map Seat.id) (l.map Seat.id) :=
    List.Sublist.map Seat.id (List.filter_sublist l)
  have hnd' : ((l.filter P).map Seat.id).Nodup := List.Nodup.sublist hsl hnd
  have hsubset : ((l.filter P).map Seat.id).toFinset ⊆ ids.toFinset := by
    intro y hy
    rw [List.mem_toFinset, List.mem_map] at hy
    obtain ⟨st, hst, rfl⟩ := hy
    rw [List.mem_filter] at hst
    exact List.mem_toFinset.mpr (hsub st hst.1 hst.2)
  have hcardlt : ids.toFinset.card < ids.length := by
    have hdl : ids.dedup.length ≤ ids.length := ids.dedup_sublist.length_le
    have hne : ids.dedup.length ≠ ids.length := by
      intro he
      exact hdup (ids.dedup_sublist.eq_of_length he ▸ ids.nodup_dedup)
    rw [List.card_toFinset]
    exact lt_of_le_of_ne hdl hne
  calc (l.filter P).length
      = ((l.filter P).map Seat.id).length := (List.length_map _ _).symm
    _ = ((l.filter P).map Seat.id).toFinset.card :=
        (List.toFinset_card_of_nodup hnd').symm
    _ ≤ ids.toFinset.card := Finset.card_le_card hsubset
    _ < ids.length := hcardlt

/-! ## C2: atomic rejection of partially unavailable requests -/

/-- C2: for every reserve request whose seat-id list contains at least one
seat that is not `available`, the handler returns the seat-unavailable error
reporting the available count and the requested count (with the available
count strictly smaller), and — since an error outcome carries no state — no
seat in the request changes status; moreover, on no input does a successful
reserve claim only a proper subset of the requested seats: whenever
`reserveSeats` succeeds, every requested seat is `reserved`. -/
theorem reserve_rejects_unavailable
    (s : AppState) (eventId userId : Nat) (seatIds : List Nat)
    (reservationId now : Nat) (ev : Event) (st₀ : Seat)
    (hnd : (s.seats.map Seat.id).Nodup)
    (hev : findEvent s eventId = some ev)
    (hmem : st₀ ∈ s.seats) (hid : st₀.id ∈ seatIds)
    (hunavail : st₀.status ≠ SeatStatus.available) :
    (∃ k, reserveSeats s eventId userId seatIds reservationId now =
        .error (.seatUnavailable k seatIds.length) ∧ k < seatIds.length) ∧
    (∀ s₂ ev₂ uid₂ ids₂ rid₂ now₂ s₂' r₂,
      reserveSeats s₂ ev₂ uid₂ ids₂ rid₂ now₂ = .ok (s₂', r₂) →
      ∀ st ∈ s₂'.seats, st.id ∈ ids₂ → st.status = SeatStatus.reserved) := by
  have hlt : (s.seats.filter (availableSeatFilter eventId seatIds)).length <
      seatIds.length := by
    apply length_filter_lt_of_excluded s.seats _ seatIds st₀.id hnd hid
    intro st hst hP
    unfold availableSeatFilter at hP
    rw [decide_eq_true_eq] at hP
    refine ⟨hP.1, fun he => ?_⟩
    have hsteq : st = st₀ := List.inj_on_of_nodup_map hnd hst hmem he
    exact hunavail (hsteq ▸ hP.2.2.1)
  have hne : seatIds.isEmpty = false := by
    cases seatIds with
    | nil => cases hid
    | cons a l => rfl
  constructor
  · refine ⟨(s.seats.filter (availableSeatFilter eventId seatIds)).length, ?_, hlt⟩
    unfold reserveSeats
    rw [hne, hev]
    simp only [Bool.false_eq_true, if_false]
    rw [if_pos (Nat.ne_of_lt hlt)]
  · intro s₂ ev₂ uid₂ ids₂ rid₂ now₂ s₂' r₂ h st hst hstid
    unfold reserveSeats at h
    by_cases hemp : ids₂.isEmpty = true
    · rw [if_pos hemp] at h
      cases h
    · rw [if_neg hemp] at h
      cases hfe : findEvent s₂ ev₂ with
      | none => rw [hfe] at h; cases h
      | some e₂ =>
        rw [hfe] at h
        by_cases hlen :
            (s₂.seats.filter (availableSeatFilter ev₂ ids₂)).length ≠ ids₂.length
        · rw [if_pos hlen] at h; cases h
        · rw [if_neg hlen] at h
          cases h
          rw [List.mem_map] at hst
          obtain ⟨a, _, rfl⟩ := hst
          by_cases ha : a.id ∈ ids₂
          · rw [if_pos ha]
          · rw [if_neg ha]
            rw [if_neg ha] at hstid
            exact absurd hstid ha

/-- Concrete table state for the C2 witness: one event, seat 1 already
reserved, seat 2 available. -/
def c2State : AppState :=
  { events := [{ id := 1 }]
    seats := [{ id := 1, event_id := 1, status := SeatStatus.reserved },
              { id := 2, event_id := 1 }] }

/-- Witness for C2: requesting seats `[1, 2]` while seat 1 is reserved is
rejected with available count 1 of requested 2. -/
theorem reserve_rejects_unavailable_witness :
    (∃ k, reserveSeats c2State 1 7 [1, 2] 50 0 =
        .error (.seatUnavailable k 2) ∧ k < 2) ∧
    (∀ s₂ ev₂ uid₂ ids₂ rid₂ now₂ s₂' r₂,
      reserveSeats s₂ ev₂ uid₂ ids₂ rid₂ now₂ = .ok (s₂', r₂) →
      ∀ st ∈ s₂'.seats, st.id ∈ ids₂ → st.status = SeatStatus.reserved) :=
  reserve_rejects_unavailable c2State 1 7 [1, 2] 50 0 { id := 1 }
    { id := 1, event_id := 1, status := SeatStatus.reserved }
    (by decide) (by decide) (by decide) (by decide) (by decide)

/-! ## C7: requests containing duplicate seat ids -/

/-- Concrete table state for C7: one event with a single available seat 1. -/
def c7State : AppState :=
  { events := [{ id := 1 }], seats := [{ id := 1, event_id := 1 }] }

/-- Counterexample to C7: requesting the duplicate list `[1, 1]` when seat 1
is available does not succeed — the handler rejects it as "one or more seats
are not available" (the one distinct available row against two requested),
contradicting the claim that such a reservation succeeds with each distinct
seat claimed once. -/
theorem reserve_duplicates_counterexample :
    reserveSeats c7State 1 7 [1, 1] 50 0 = .error (.seatUnavailable 1 2) := by
  rfl

/-- C7 amended: a reserve request whose seat-id list contains duplicates is
always rejected with the seat-unavailable error (the available row count,
which is at most the number of distinct ids, against the longer raw list
length); no seat is claimed — in particular no seat is double-claimed, but
the reservation does not succeed. -/
theorem reserve_rejects_duplicates
    (s : AppState) (eventId userId : Nat) (seatIds : List Nat)
    (reservationId now : Nat) (ev : Event)
    (hnd : (s.seats.map Seat.id).Nodup)
    (hev : findEvent s eventId = some ev)
    (hdup : ¬ seatIds.Nodup) :
    ∃ k, reserveSeats s eventId userId seatIds reservationId now =
      .error (.seatUnavailable k seatIds.length) ∧ k < seatIds.length := by
  have hlt : (s.seats.filter (availableSeatFilter eventId seatIds)).length <
      seatIds.length := by
    apply length_filter_lt_of_dup s.seats _ seatIds hnd hdup
    intro st _ hP
    unfold availableSeatFilter at hP
    rw [decide_eq_true_eq] at hP
    exact hP.1
  have hne : seatIds.isEmpty = false := by
    cases seatIds with
    | nil => exact absurd List.nodup_nil hdup
    | cons a l => rfl
  refine ⟨(s.seats.filter (availableSeatFilter eventId seatIds)).length, ?_, hlt⟩
  unfold reserveSeats
  rw [hne, hev]
  simp only [Bool.false_eq_true, if_false]
  rw [if_pos (Nat.ne_of_lt hlt)]

/-- Witness for the amended C7 at the concrete duplicate request `[1, 1]`. -/
theorem reserve_rejects_duplicates_witness :
    ∃ k, reserveSeats c7State 1 7 [1, 1] 50 0 =
      .error (.seatUnavailable k 2) ∧ k < 2 :=
  reserve_rejects_duplicates c7State 1 7 [1, 1] 50 0 { id := 1 }
    (by decide) (by decide) (by decide)

/-! ## The Expiry Reaper sweep (`GuestCheckoutService.cleanupExpiredCheckouts`,
`src/services/emailService.js` lines 1399-1418) -/

/-- The sweep's row predicate:
`where('is_guest', true).where('status', 'pending').where('expires_at', '<', now)`. -/
def guestPendingExpired (now : Nat) (c : Checkout) : Bool :=
  c.is_guest && decide (c.status = CheckoutStatus.pending) &&
    decide (c.expires_at < now)

/-- `cleanupExpiredCheckouts`: marks every pending guest checkout past its
`expires_at` as `expired` and returns the number of rows updated.  It touches
only the `checkouts` table. -/
def cleanupExpiredCheckouts (s : AppState) (now : Nat) : AppState × Nat :=
  let checkouts' := s.checkouts.map fun c =>
    if guestPendingExpired now c then { c with status := CheckoutStatus.expired }
    else c
  ({ s with checkouts := checkouts' },
   (s.checkouts.filter (guestPendingExpired now)).length)

/-! ## C3: expiry sweep and confirm-after-expiry -/

/-- Concrete table state for C3: a pending seat reservation for user 7 on
seat 1 that expired at time 100, a completed payment 9 by the same user, and
a pending guest checkout that also expired at time 100. -/
def c3State : AppState :=
  { events := [{ id := 1 }]
    seats := [{ id := 1, event_id := 1, status := SeatStatus.reserved,
                reserved_by := some 7, reservation_id := some 5 }]
    seatReservations := [{ id := 5, event_id := 1, user_id := 7,
                           seat_ids := [1], status := .pending,
                           expires_at := 100 }]
    payments := [{ id := 9, user_id := some 7, status := .completed }]
    checkouts := [{ id := 30, cart_id := 99, is_guest := true,
                    status := .pending, expires_at := 100 }] }

/-- The state after running the Reaper sweep at time 200. -/
def c3Swept : AppState := (cleanupExpiredCheckouts c3State 200).1

/-- The state after a confirm attempt on the expired reservation. -/
def c3Confirmed : AppState := ((confirmSeats c3Swept 7 5 9).toOption.getD default).1

/-- Counterexample to C3: at time 200 the sweep leaves the expired pending
reservation `pending` and its seat `reserved` (it only expires the guest
checkout session), and a subsequent confirm attempt on the expired
reservation does not fail with an invalid-state error — it succeeds and
marks the seat `sold` and the reservation `confirmed`. -/
theorem confirm_after_expiry_counterexample :
    c3Swept.seats = c3State.seats ∧
    c3Swept.seatReservations = c3State.seatReservations ∧
    c3Swept.checkouts.map Checkout.status = [CheckoutStatus.expired] ∧
    (confirmSeats c3Swept 7 5 9).isOk = true ∧
    c3Confirmed.seats.map Seat.status = [SeatStatus.sold] ∧
    c3Confirmed.seatReservations.map SeatReservation.status =
      [ReservationStatus.confirmed] :=
  ⟨rfl, rfl, rfl, rfl, rfl, rfl⟩

/-- C3 amended: the Reaper sweep (`cleanupExpiredCheckouts`) marks every
pending guest checkout past its `expires_at` as `expired` but modifies
neither the seats nor the seat reservations (no seat is released); and a
confirm attempt on a reservation — including one past its expiry — does not
fail with an invalid-state error: whenever the reservation and a completed
payment for the same user exist, `confirmSeats` succeeds and marks all the
reservation's seats `sold`. -/
theorem cleanup_leaves_seats_and_confirm_succeeds
    (s : AppState) (now userId reservationId paymentId : Nat)
    (r : SeatReservation) (p : Payment)
    (hr : s.seatReservations.find?
      (fun x => decide (x.id = reservationId ∧ x.user_id = userId)) = some r)
    (hp : s.payments.find?
      (fun x => decide (x.id = paymentId ∧ x.user_id = some userId)) = some p)
    (hps : p.status = PaymentStatus.completed) :
    (cleanupExpiredCheckouts s now).1.seats = s.seats ∧
    (cleanupExpiredCheckouts s now).1.seatReservations = s.seatReservations ∧
    (∀ c ∈ s.checkouts, guestPendingExpired now c = true →
      ∃ c' ∈ (cleanupExpiredCheckouts s now).1.checkouts,
        c'.id = c.id ∧ c'.status = CheckoutStatus.expired) ∧
    (∃ s' res, confirmSeats s userId reservationId paymentId = .ok (s', res) ∧
      ∀ st ∈ s'.seats, st.id ∈ r.seat_ids → st.status = SeatStatus.sold) := by
  refine ⟨rfl, rfl, ?_, ?_⟩
  · intro c hc hgc
    refine ⟨_, List.mem_map_of_mem _ hc, ?_, ?_⟩
    · rw [if_pos hgc]
    · rw [if_pos hgc]
  · unfold confirmSeats
    rw [hr, hp]
    dsimp only
    rw [if_neg (fun hne => hne hps)]
    refine ⟨_, _, rfl, fun st hst hmem => ?_⟩
    have hst' : st ∈ s.seats.map fun st =>
        if st.id ∈ r.seat_ids then
          { st with
            status := SeatStatus.sold
            sold_by := some userId
            payment_id := some paymentId
            reservation_id := none }
        else st := hst
    rw [List.mem_map] at hst'
    obtain ⟨a, _, rfl⟩ := hst'
    by_cases ha : a.id ∈ r.seat_ids
    · rw [if_pos ha]
    · rw [if_neg ha]
      rw [if_neg ha] at hmem
      exact absurd hmem ha

/-- Witness for the amended C3 at the concrete expired reservation. -/
theorem cleanup_leaves_seats_and_confirm_succeeds_witness :
    (cleanupExpiredCheckouts c3State 200).1.seats = c3State.seats ∧
    (cleanupExpiredCheckouts c3State 200).1.seatReservations =
      c3State.seatReservations ∧
    (∀ c ∈ c3State.checkouts, guestPendingExpired 200 c = true →
      ∃ c' ∈ (cleanupExpiredCheckouts c3State 200).1.checkouts,
        c'.id = c.id ∧ c'.status = CheckoutStatus.expired) ∧
    (∃ s' res, confirmSeats c3State 7 5 9 = .ok (s', res) ∧
      ∀ st ∈ s'.seats, st.id ∈ [1] → st.status = SeatStatus.sold) :=
  cleanup_leaves_seats_and_confirm_succeeds c3State 200 7 5 9
    { id := 5, event_id := 1, user_id := 7, seat_ids := [1],
      status := .pending, expires_at := 100 }
    { id := 9, user_id := some 7, status := .completed }
    (by rfl) (by rfl) rfl

/-! ## Cart service (`CartService`, `src/services/cartCheckoutService.js`) -/

/-- Errors thrown by the cart service. -/
inductive CartError
  | cartNotFound
  | itemNotFound
  deriving DecidableEq, Inhabited

/-- `CartService.calculateCartTotal` (lines 242-254): sums the `total_price`
column over the cart's item rows. -/
def calculateCartTotal (items : List CartItem) (cartId : Nat) : Rat :=
  ((items.filter fun it => decide (it.cart_id = cartId)).map fun it =>
    it.total_price).sum

/-- The `shopping_carts` lookup shared by the cart and checkout services:
`where('user_id', userId).where('status', 'active').first()`. -/
def findActiveCart (s : AppState) (userId : Nat) : Option Cart :=
  s.shoppingCarts.find? fun c =>
    decide (c.user_id = some userId ∧ c.status = CartStatus.active)

/-- `CartService.removeFromCart` (lines 122-149): deletes the item row and
recomputes and stores the cart total. -/
def removeFromCart (s : AppState) (userId itemId : Nat) :
    Except CartError (AppState × Rat) :=
  match findActiveCart s userId with
  | none => .error .cartNotFound
  | some cart =>
    let items' := s.cartItems.filter fun it =>
      !(decide (it.id = itemId ∧ it.cart_id = cart.id))
    let total := calculateCartTotal items' cart.id
    let carts' := s.shoppingCarts.map fun c =>
      if c.id = cart.id then { c with total_amount := some total } else c
    .ok ({ s with cartItems := items', shoppingCarts := carts' }, total)

/-- `CartService.updateQuantity` (lines 154-198).  A quantity below 1 falls
back to `removeFromCart`; otherwise the item row receives the new `quantity`
and a write to the `subtotal` column.  The source computes `newSubtotal` as
`item.price * quantity`, but the loaded row has no `price` column (the
column is `unit_price`), so the product is the JavaScript non-number `NaN`;
the written `subtotal` is modelled as `none`.  The update filters on the
item id only, and the `total_price` column that `calculateCartTotal` sums is
never written. -/
def updateQuantity (s : AppState) (userId itemId : Nat) (quantity : Int) :
    Except CartError (AppState × Rat) :=
  if quantity < 1 then removeFromCart s userId itemId
  else
    match findActiveCart s userId with
    | none => .error .cartNotFound
    | some cart =>
      match s.cartItems.find? fun it =>
          decide (it.id = itemId ∧ it.cart_id = cart.id) with
      | none => .error .itemNotFound
      | some _ =>
        let items' := s.cartItems.map fun it =>
          if it.id = itemId then
            { it with
              quantity := quantity.toNat
              subtotal := none }
          else it
        let total := calculateCartTotal items' cart.id
        let carts' := s.shoppingCarts.map fun c =>
          if c.id = cart.id then { c with total_amount := some total } else c
        .ok ({ s with cartItems := items', shoppingCarts := carts' }, total)

/-! ## Checkout service (`CheckoutService`, `src/services/cartCheckoutService.js`) -/

/-- Errors thrown by the checkout service. -/
inductive CheckoutError
  | cartEmpty
  | billingRequired
  | checkoutNotFound
  | paymentNotCompleted
  deriving DecidableEq, Inhabited

/-- The opaque `billing_info` blob; the service only checks presence and
stores it serialized. -/
structure BillingInfo where
  raw : String := ""
  deriving DecidableEq, Inhabited

/-- Response body of `CheckoutService.initiateCheckout`. -/
structure InitiateResult where
  checkoutId : Nat
  totalAmount : Rat
  paymentMethod : String
  deriving DecidableEq, Inhabited

/-- Response body of `CheckoutService.completeCheckout`. -/
structure CompleteResult where
  orderId : Nat
  ticketsCreated : Nat
  totalAmount : Rat
  deriving DecidableEq, Inhabited

/-- `CheckoutService.initiateCheckout` (lines 353-421): requires an active
cart with a positive total and present billing info, then inserts a pending
checkout row snapshotting `subtotal` (the cart total), `discount_amount`,
and `total_amount` (their difference), expiring in 30 minutes. -/
def initiateCheckout (s : AppState) (userId : Nat)
    (billing_info : Option BillingInfo) (payment_method : String)
    (checkoutId now : Nat) : Except CheckoutError (AppState × InitiateResult) :=
  match findActiveCart s userId with
  | none => .error .cartEmpty
  | some cart =>
    match cart.total_amount with
    | none => .error .cartEmpty
    | some ta =>
      if ta ≤ 0 then .error .cartEmpty
      else
        match billing_info with
        | none => .error .billingRequired
        | some _ =>
          let discount := cart.discount_amount.getD 0
          let finalAmount := ta - discount
          let checkout : Checkout :=
            { id := checkoutId
              user_id := some userId
              cart_id := cart.id
              subtotal := ta
              discount_amount := discount
              total_amount := finalAmount
              status := .pending
              expires_at := now + 30 * 60 * 1000 }
          .ok ({ s with checkouts := s.checkouts ++ [checkout] },
               { checkoutId := checkoutId
                 totalAmount := finalAmount
                 paymentMethod := payment_method })

/-- The per-item ticket expansion of `completeCheckout` (lines 480-506): one
ticket per unit of quantity.  The `price` passed to
`ticketService.createTicket` is `cartItem.price`, which is undefined on the
row (the column is `unit_price`); the stored price is modelled as `none`. -/
def authTicketsForItem (userId orderId : Nat) (it : CartItem) : List Ticket :=
  List.replicate it.quantity
    { event_id := it.event_id
      order_id := some orderId
      ticket_type := it.ticket_type
      price := none
      status := "confirmed"
      user_id := some userId }

/-- `CheckoutService.completeCheckout` (lines 426-573).  Loads the checkout
by id, user and `status = 'pending'` (a processed checkout is not found and
the call throws), verifies a completed payment, creates the order from the
checkout's snapshotted amounts, expands every current cart item row into
tickets, bumps the per-event sold/available counters, then marks the
checkout `completed` (recording `order_id`) and the cart `completed`. -/
def completeCheckout (s : AppState) (userId checkoutId paymentIntentId orderId : Nat) :
    Except CheckoutError (AppState × CompleteResult) :=
  match s.checkouts.find? fun c =>
      decide (c.id = checkoutId ∧ c.user_id = some userId ∧
        c.status = CheckoutStatus.pending) with
  | none => .error .checkoutNotFound
  | some checkout =>
    match s.payments.find? fun p =>
        decide (p.id = paymentIntentId ∧ p.user_id = some userId ∧
          p.status = PaymentStatus.completed) with
    | none => .error .paymentNotCompleted
    | some _ =>
      let cartItems := s.cartItems.filter fun it =>
        decide (it.cart_id = checkout.cart_id)
      let order : Order :=
        { id := orderId
          user_id := some userId
          checkout_id := some checkoutId
          payment_id := some paymentIntentId
          subtotal := checkout.subtotal
          discount_amount := checkout.discount_amount
          total_amount := checkout.total_amount
          status := "confirmed" }
      let newTickets := cartItems.flatMap (authTicketsForItem userId orderId)
      let events' := s.events.map fun ev =>
        let n := (newTickets.filter fun t => decide (t.event_id = ev.id)).length
        if n > 0 then
          { ev with
            sold_tickets := ev.sold_tickets + n
            available_tickets := ev.available_tickets - n }
        else ev
      let checkouts' := s.checkouts.map fun c =>
        if c.id = checkoutId then
          { c with status := CheckoutStatus.completed, order_id := some orderId }
        else c
      let carts' := s.shoppingCarts.map fun c =>
        if c.id = checkout.cart_id then { c with status := CartStatus.completed }
        else c
      .ok ({ s with
             orders := s.orders ++ [order]
             tickets := s.tickets ++ newTickets
             events := events'
             checkouts := checkouts'
             shoppingCarts := carts' },
           { orderId := orderId
             ticketsCreated := newTickets.length
             totalAmount := checkout.total_amount })

/-- `CheckoutService.cancelCheckout` (lines 607-638): loads the checkout by
id and user with no filter on its status, then unconditionally writes
`status = 'cancelled'`. -/
def cancelCheckout (s : AppState) (checkoutId userId : Nat) :
    Except CheckoutError AppState :=
  match s.checkouts.find? fun c =>
      decide (c.id = checkoutId ∧ c.user_id = some userId) with
  | none => .error .checkoutNotFound
  | some _ =>
    .ok { s with
          checkouts := s.checkouts.map fun c =>
            if c.id = checkoutId then { c with status := CheckoutStatus.cancelled }
            else c }

/-- `completeCheckout` reduces to the not-found error as soon as the
pending-checkout lookup comes back empty. -/
theorem completeCheckout_eq_error_of_none
    (s : AppState) (userId checkoutId paymentIntentId orderId : Nat)
    (h : s.checkouts.find? (fun c =>
      decide (c.id = checkoutId ∧ c.user_id = some userId ∧
        c.status = CheckoutStatus.pending)) = none) :
    completeCheckout s userId checkoutId paymentIntentId orderId =
      .error .checkoutNotFound := by
  unfold completeCheckout
  rw [h]

/-! ## C1: repeat completion of the same checkout -/

/-- C1 amended: after a successful `completeCheckout`, calling it again with
the same `checkoutId` does not return the same order — the pending-status
filter no longer matches, so the repeat call fails with the
checkout-not-found error ("Checkout not found or already processed"); since
an error outcome carries no state, the repeat call creates no second order
and no duplicate tickets. -/
theorem completeCheckout_repeat_errors
    (s : AppState) (userId checkoutId paymentId orderId : Nat)
    (s' : AppState) (res : CompleteResult)
    (h : completeCheckout s userId checkoutId paymentId orderId = .ok (s', res)) :
    ∀ paymentId₂ orderId₂,
      completeCheckout s' userId checkoutId paymentId₂ orderId₂ =
        .error CheckoutError.checkoutNotFound := by
  intro pid₂ oid₂
  unfold completeCheckout at h
  cases hfc : s.checkouts.find? fun c =>
      decide (c.id = checkoutId ∧ c.user_id = some userId ∧
        c.status = CheckoutStatus.pending) with
  | none => rw [hfc] at h; cases h
  | some checkout =>
    rw [hfc] at h
    cases hfp : s.payments.find? fun p =>
        decide (p.id = paymentId ∧ p.user_id = some userId ∧
          p.status = PaymentStatus.completed) with
    | none => rw [hfp] at h; cases h
    | some payment =>
      rw [hfp] at h
      dsimp only at h
      cases h
      apply completeCheckout_eq_error_of_none
      show (s.checkouts.map fun c =>
          if c.id = checkoutId then
            { c with status := CheckoutStatus.completed, order_id := some orderId }
          else c).find? (fun c =>
            decide (c.id = checkoutId ∧ c.user_id = some userId ∧
              c.status = CheckoutStatus.pending)) = none
      rw [List.find?_eq_none]
      intro x hx
      rw [List.mem_map] at hx
      obtain ⟨a, _, rfl⟩ := hx
      by_cases ha : a.id = checkoutId
      · rw [if_pos ha]
        intro hdec
        rw [decide_eq_true_eq] at hdec
        cases hdec.2.2
      · rw [if_neg ha]
        intro hdec
        rw [decide_eq_true_eq] at hdec
        exact ha hdec.1

/-- Concrete table state for C1: a pending checkout 40 for user 7 over cart
10 (one item, quantity 1) and a completed payment 9. -/
def c1State : AppState :=
  { events := [{ id := 1, available_tickets := 100 }]
    payments := [{ id := 9, user_id := some 7, status := .completed }]
    shoppingCarts := [{ id := 10, user_id := some 7, status := .active,
                        total_amount := some 30 }]
    cartItems := [{ id := 20, cart_id := 10, event_id := 1, quantity := 1,
                    unit_price := 30, total_price := 30 }]
    checkouts := [{ id := 40, user_id := some 7, cart_id := 10,
                    subtotal := 30, total_amount := 30, status := .pending }] }

/-- The first completion call of the C1 scenario. -/
def c1FirstCall : Except CheckoutError (AppState × CompleteResult) :=
  completeCheckout c1State 7 40 9 100

/-- The state after the first successful completion. -/
def c1After : AppState := (c1FirstCall.toOption.getD default).1

/-- The response of the first successful completion. -/
def c1Res : CompleteResult := (c1FirstCall.toOption.getD default).2

/-- Counterexample to C1: the first completion of checkout 40 succeeds with
order 100, but the repeat call with the same `checkoutId` and the same
completed payment does not succeed with the same `orderId` — it fails with
the checkout-not-found error. -/
theorem completeCheckout_repeat_counterexample :
    (completeCheckout c1State 7 40 9 100).isOk = true ∧
    c1Res.orderId = 100 ∧
    completeCheckout c1After 7 40 9 100 = .error CheckoutError.checkoutNotFound :=
  ⟨rfl, rfl, rfl⟩

/-- Witness for the amended C1 at the concrete checkout 40. -/
theorem completeCheckout_repeat_errors_witness :
    completeCheckout c1State 7 40 9 100 = .ok (c1After, c1Res) ∧
    completeCheckout c1After 7 40 11 101 = .error CheckoutError.checkoutNotFound :=
  ⟨rfl, completeCheckout_repeat_errors c1State 7 40 9 100 c1After c1Res rfl 11 101⟩

/-! ## C4: terminal checkout statuses and cancellation -/

/-- Concrete table state for C4: a single checkout that is already
`completed`. -/
def c4State : AppState :=
  { checkouts := [{ id := 41, user_id := some 7, cart_id := 10,
                    status := .completed }] }

/-- Counterexample to C4: `cancelCheckout` on the completed checkout 41
succeeds and rewrites its status to `cancelled`, so cancel is not restricted
to pending sessions and a completed session's status does change. -/
theorem cancel_completed_counterexample :
    (cancelCheckout c4State 41 7).isOk = true ∧
    ((cancelCheckout c4State 41 7).toOption.getD default).checkouts.map
      Checkout.status = [CheckoutStatus.cancelled] :=
  ⟨rfl, rfl⟩

/-- C4 amended: `completeCheckout` never touches a session whose rows with
that id are all non-pending (it fails with checkout-not-found, leaving every
status as it was), but `cancelCheckout` succeeds on any existing session of
the user regardless of its current status — including `completed`,
`expired`, or `cancelled` — and sets it to `cancelled`. -/
theorem checkout_terminal_vs_cancel
    (s : AppState) (userId checkoutId paymentId orderId : Nat) (c : Checkout)
    (hterm : ∀ x ∈ s.checkouts, x.id = checkoutId →
      x.status ≠ CheckoutStatus.pending)
    (hc : c ∈ s.checkouts) (hid : c.id = checkoutId)
    (huser : c.user_id = some userId) :
    completeCheckout s userId checkoutId paymentId orderId =
      .error CheckoutError.checkoutNotFound ∧
    ∃ s', cancelCheckout s checkoutId userId = .ok s' ∧
      ∀ c' ∈ s'.checkouts, c'.id = checkoutId →
        c'.status = CheckoutStatus.cancelled := by
  constructor
  · apply completeCheckout_eq_error_of_none
    rw [List.find?_eq_none]
    intro x hx hdec
    rw [decide_eq_true_eq] at hdec
    exact hterm x hx hdec.1 hdec.2.2
  · have hsome : (s.checkouts.find? fun x =>
        decide (x.id = checkoutId ∧ x.user_id = some userId)).isSome := by
      rw [List.find?_isSome]
      exact ⟨c, hc, by rw [decide_eq_true_eq]; exact ⟨hid, huser⟩⟩
    obtain ⟨c₀, hc₀⟩ := Option.isSome_iff_exists.mp hsome
    unfold cancelCheckout
    rw [hc₀]
    refine ⟨_, rfl, fun c' hc' hcid => ?_⟩
    have hc'' : c' ∈ s.checkouts.map fun x =>
        if x.id = checkoutId then { x with status := CheckoutStatus.cancelled }
        else x := hc'
    rw [List.mem_map] at hc''
    obtain ⟨a, _, rfl⟩ := hc''
    by_cases ha : a.id = checkoutId
    · rw [if_pos ha]
    · rw [if_neg ha]
      rw [if_neg ha] at hcid
      exact absurd hcid ha

/-- Witness for the amended C4 at the concrete completed checkout 41. -/
theorem checkout_terminal_vs_cancel_witness :
    completeCheckout c4State 7 41 9 100 =
      .error CheckoutError.checkoutNotFound ∧
    ∃ s', cancelCheckout c4State 41 7 = .ok s' ∧
      ∀ c' ∈ s'.checkouts, c'.id = 41 →
        c'.status = CheckoutStatus.cancelled :=
  checkout_terminal_vs_cancel c4State 7 41 9 100
    { id := 41, user_id := some 7, cart_id := 10, status := .completed }
    (by decide) (by decide) rfl rfl

/-! ## C9: `updateQuantity` never changes the summed total -/

/-- Mapping a row transformation that preserves `cart_id` and `total_price`
over the item table leaves `calculateCartTotal` unchanged. -/
theorem calculateCartTotal_map (l : List CartItem) (cartId : Nat)
    (f : CartItem → CartItem)
    (h1 : ∀ it, (f it).cart_id = it.cart_id)
    (h2 : ∀ it, (f it).total_price = it.total_price) :
    calculateCartTotal (l.map f) cartId = calculateCartTotal l cartId := by
  induction l with
  | nil => rfl
  | cons a l ih =>
    simp only [calculateCartTotal, List.map_cons, List.filter_cons] at ih ⊢
    by_cases hc : a.cart_id = cartId
    · simp only [h1, h2, hc, decide_True, if_true, List.map_cons,
        List.sum_cons, ih]
    · simp only [h1, hc, decide_False, if_false, Bool.false_eq_true, ih]

/-- C9: for an active cart and an existing item row, `updateQuantity` with
any quantity of at least 1 leaves the summed cart total unchanged — the
update writes `quantity` and the `subtotal` column but never `total_price`,
which is what `calculateCartTotal` sums — and the stored `total_amount` of
the cart is the same recomputed value. -/
theorem updateQuantity_preserves_total
    (s : AppState) (userId itemId : Nat) (q : Int) (cart : Cart)
    (item : CartItem) (hq : 1 ≤ q)
    (hcart : findActiveCart s userId = some cart)
    (hitem : s.cartItems.find? (fun it =>
      decide (it.id = itemId ∧ it.cart_id = cart.id)) = some item) :
    ∃ s', updateQuantity s userId itemId q =
        .ok (s', calculateCartTotal s.cartItems cart.id) ∧
      calculateCartTotal s'.cartItems cart.id =
        calculateCartTotal s.cartItems cart.id ∧
      ∀ c' ∈ s'.shoppingCarts, c'.id = cart.id →
        c'.total_amount = some (calculateCartTotal s.cartItems cart.id) := by
  have hmap : calculateCartTotal (s.cartItems.map fun it =>
      if it.id = itemId then { it with quantity := q.toNat, subtotal := none }
      else it) cart.id = calculateCartTotal s.cartItems cart.id := by
    apply calculateCartTotal_map
    · intro it
      by_cases h : it.id = itemId
      · rw [if_pos h]
      · rw [if_neg h]
    · intro it
      by_cases h : it.id = itemId
      · rw [if_pos h]
      · rw [if_neg h]
  unfold updateQuantity
  rw [if_neg (by omega : ¬ q < 1), hcart]
  dsimp only
  rw [hitem]
  dsimp only
  rw [hmap]
  refine ⟨_, rfl, hmap, fun c' hc' hcid => ?_⟩
  have hc'' : c' ∈ s.shoppingCarts.map fun c =>
      if c.id = cart.id then
        { c with total_amount := some (calculateCartTotal s.cartItems cart.id) }
      else c := hc'
  rw [List.mem_map] at hc''
  obtain ⟨a, _, rfl⟩ := hc''
  by_cases ha : a.id = cart.id
  · rw [if_pos ha]
  · rw [if_neg ha]
    rw [if_neg ha] at hcid
    exact absurd hcid ha

/-- Concrete table state for C9: an active cart of user 7 holding one item
of quantity 2, unit price 15, line total 30. -/
def c9State : AppState :=
  { shoppingCarts := [{ id := 10, user_id := some 7, status := .active,
                        total_amount := some 30 }]
    cartItems := [{ id := 20, cart_id := 10, event_id := 1, quantity := 2,
                    unit_price := 15, total_price := 30 }] }

/-- Witness for C9: updating item 20 to quantity 5 leaves the summed total
at 30. -/
theorem updateQuantity_preserves_total_witness :
    ∃ s', updateQuantity c9State 7 20 5 =
        .ok (s', calculateCartTotal c9State.cartItems 10) ∧
      calculateCartTotal s'.cartItems 10 =
        calculateCartTotal c9State.cartItems 10 ∧
      ∀ c' ∈ s'.shoppingCarts, c'.id = 10 →
        c'.total_amount = some (calculateCartTotal c9State.cartItems 10) :=
  updateQuantity_preserves_total c9State 7 20 5
    { id := 10, user_id := some 7, status := .active, total_amount := some 30 }
    { id := 20, cart_id := 10, event_id := 1, quantity := 2,
      unit_price := 15, total_price := 30 }
    (by decide) rfl rfl

/-! ## C6: copy-on-initiate of amounts vs. tickets read at completion -/

/-- When the pending-checkout and completed-payment lookups both hit,
`completeCheckout` succeeds and its response carries the checkout's
snapshotted `total_amount` and one ticket per unit of quantity over the
cart's item rows as they are at completion time. -/
theorem completeCheckout_result_of_found
    (s : AppState) (userId checkoutId paymentIntentId orderId : Nat)
    (ck : Checkout) (p : Payment)
    (hfc : s.checkouts.find? (fun c =>
      decide (c.id = checkoutId ∧ c.user_id = some userId ∧
        c.status = CheckoutStatus.pending)) = some ck)
    (hfp : s.payments.find? (fun q =>
      decide (q.id = paymentIntentId ∧ q.user_id = some userId ∧
        q.status = PaymentStatus.completed)) = some p) :
    ∃ s', completeCheckout s userId checkoutId paymentIntentId orderId =
      .ok (s',
        { orderId := orderId
          ticketsCreated := ((s.cartItems.filter fun it =>
            decide (it.cart_id = ck.cart_id)).flatMap
            (authTicketsForItem userId orderId)).length
          totalAmount := ck.total_amount }) := by
  apply Exists.intro
  unfold completeCheckout
  rw [hfc]
  dsimp only
  rw [hfp]

/-- The checkout row `initiateCheckout` inserts for an active cart with
total `ta`: the snapshotted `subtotal`, `discount_amount` and their
difference as `total_amount`, pending, expiring in 30 minutes. -/
def snapshotCheckout (userId checkoutId now : Nat) (cart : Cart) (ta : Rat) :
    Checkout :=
  { id := checkoutId
    user_id := some userId
    cart_id := cart.id
    subtotal := ta
    discount_amount := cart.discount_amount.getD 0
    total_amount := ta - cart.discount_amount.getD 0
    status := .pending
    expires_at := now + 30 * 60 * 1000 }

/-- C6 amended: the monetary outcome of a checkout session is fixed at
initiation — `initiateCheckout` snapshots the cart's total and discount into
the session row, and completion returns that snapshotted `total_amount`
whether or not the cart is mutated afterwards — but the set of tickets
issued is read from the cart's item rows at completion time: appending one
more item to the cart between initiation and completion leaves the returned
`totalAmount` unchanged while increasing the tickets issued by the new
item's quantity. -/
theorem initiate_snapshots_amounts_tickets_track_cart
    (s : AppState) (userId : Nat) (b : BillingInfo) (pm : String)
    (checkoutId now paymentId orderId : Nat) (cart : Cart) (ta : Rat)
    (extra : CartItem)
    (hcart : findActiveCart s userId = some cart)
    (hta : cart.total_amount = some ta) (hpos : 0 < ta)
    (hfresh : ∀ x ∈ s.checkouts, x.id ≠ checkoutId)
    (hpay : (s.payments.find? fun p =>
      decide (p.id = paymentId ∧ p.user_id = some userId ∧
        p.status = PaymentStatus.completed)).isSome = true)
    (hextra : extra.cart_id = cart.id) :
    ∃ s₁ r₁ s₁' res₁ s₂' res₂,
      initiateCheckout s userId (some b) pm checkoutId now = .ok (s₁, r₁) ∧
      completeCheckout s₁ userId checkoutId paymentId orderId =
        .ok (s₁', res₁) ∧
      completeCheckout { s₁ with cartItems := s₁.cartItems ++ [extra] }
        userId checkoutId paymentId orderId = .ok (s₂', res₂) ∧
      res₁.totalAmount = ta - cart.discount_amount.getD 0 ∧
      res₂.totalAmount = res₁.totalAmount ∧
      res₂.ticketsCreated = res₁.ticketsCreated + extra.quantity := by
  have hinit : initiateCheckout s userId (some b) pm checkoutId now =
      .ok ({ s with checkouts :=
               s.checkouts ++ [snapshotCheckout userId checkoutId now cart ta] },
           { checkoutId := checkoutId
             totalAmount := ta - cart.discount_amount.getD 0
             paymentMethod := pm }) := by
    unfold initiateCheckout
    rw [hcart]
    dsimp only
    rw [hta]
    dsimp only
    rw [if_neg (not_le.mpr hpos)]
    rfl
  have hnone : s.checkouts.find? (fun c =>
      decide (c.id = checkoutId ∧ c.user_id = some userId ∧
        c.status = CheckoutStatus.pending)) = none := by
    rw [List.find?_eq_none]
    intro x hx hdec
    rw [decide_eq_true_eq] at hdec
    exact hfresh x hx hdec.1
  have hfind : (s.checkouts ++
      [snapshotCheckout userId checkoutId now cart ta]).find? (fun c =>
      decide (c.id = checkoutId ∧ c.user_id = some userId ∧
        c.status = CheckoutStatus.pending)) =
      some (snapshotCheckout userId checkoutId now cart ta) := by
    rw [List.find?_append, hnone, Option.none_or]
    apply List.find?_cons_of_pos
    rw [decide_eq_true_eq]
    exact ⟨rfl, rfl, rfl⟩
  obtain ⟨p, hp⟩ := Option.isSome_iff_exists.mp hpay
  obtain ⟨s₁', h1⟩ := completeCheckout_result_of_found
    ({ s with checkouts :=
        s.checkouts ++ [snapshotCheckout userId checkoutId now cart ta] })
    userId checkoutId paymentId orderId
    (snapshotCheckout userId checkoutId now cart ta) p hfind hp
  obtain ⟨s₂', h2⟩ := completeCheckout_result_of_found
    ({ s with
       checkouts := s.checkouts ++ [snapshotCheckout userId checkoutId now cart ta]
       cartItems := s.cartItems ++ [extra] })
    userId checkoutId paymentId orderId
    (snapshotCheckout userId checkoutId now cart ta) p hfind hp
  refine ⟨_, _, s₁', _, s₂', _, hinit, h1, h2, rfl, rfl, ?_⟩
  dsimp only [snapshotCheckout]
  rw [List.filter_append, List.flatMap_append, List.length_append]
  congr 1
  have hone : List.filter (fun it =>
      decide (it.cart_id = cart.id)) [extra] = [extra] := by
    rw [List.filter_cons, if_pos (decide_eq_true hextra)]
    rfl
  rw [hone]
  show (authTicketsForItem userId orderId extra ++ []).length = extra.quantity
  rw [List.append_nil]
  unfold authTicketsForItem
  rw [List.length_replicate]

/-- Concrete table state for C6: an active cart of user 7 with a single
quantity-1 item and a completed payment 9; no checkout yet. -/
def c6State : AppState :=
  { events := [{ id := 1, available_tickets := 100 }]
    payments := [{ id := 9, user_id := some 7, status := .completed }]
    shoppingCarts := [{ id := 10, user_id := some 7, status := .active,
                        total_amount := some 30 }]
    cartItems := [{ id := 20, cart_id := 10, event_id := 1, quantity := 1,
                    unit_price := 30, total_price := 30 }] }

/-- The item added to the cart after initiation in the C6 scenario. -/
def c6ExtraItem : CartItem :=
  { id := 21, cart_id := 10, event_id := 1, quantity := 1, unit_price := 5,
    total_price := 5 }

/-- The initiation call of the C6 scenario. -/
def c6Init : Except CheckoutError (AppState × InitiateResult) :=
  initiateCheckout c6State 7 (some { raw := "billing" }) "stripe" 60 0

/-- The state after initiation. -/
def c6S1 : AppState := (c6Init.toOption.getD default).1

/-- The post-initiation state with one more item added to the source cart. -/
def c6Mutated : AppState :=
  { c6S1 with cartItems := c6S1.cartItems ++ [c6ExtraItem] }

/-- Counterexample to C6: the cart held a single quantity-1 item at the
instant of initiation, yet after adding another item the completion call
issues 2 tickets — the set of tickets is not determined by the cart's
contents at initiation (the returned total does stay at the snapshotted
30). -/
theorem snapshot_counterexample :
    c6Init.isOk = true ∧
    ((c6State.cartItems.filter fun it =>
      decide (it.cart_id = 10)).map CartItem.quantity).sum = 1 ∧
    ((completeCheckout c6Mutated 7 60 9 100).toOption.getD
      default).2.ticketsCreated = 2 ∧
    ((completeCheckout c6Mutated 7 60 9 100).toOption.getD
      default).2.totalAmount = 30 - 0 :=
  ⟨rfl, rfl, rfl, rfl⟩

/-- Witness for the amended C6 at the concrete cart 10. -/
theorem initiate_snapshots_amounts_tickets_track_cart_witness :
    ∃ s₁ r₁ s₁' res₁ s₂' res₂,
      initiateCheckout c6State 7 (some { raw := "billing" }) "stripe" 60 0 =
        .ok (s₁, r₁) ∧
      completeCheckout s₁ 7 60 9 100 = .ok (s₁', res₁) ∧
      completeCheckout { s₁ with cartItems := s₁.cartItems ++ [c6ExtraItem] }
        7 60 9 100 = .ok (s₂', res₂) ∧
      res₁.totalAmount = 30 - 0 ∧
      res₂.totalAmount = res₁.totalAmount ∧
      res₂.ticketsCreated = res₁.ticketsCreated + 1 :=
  initiate_snapshots_amounts_tickets_track_cart c6State 7 { raw := "billing" }
    "stripe" 60 0 9 100
    { id := 10, user_id := some 7, status := .active, total_amount := some 30 }
    30 c6ExtraItem rfl rfl (by decide) (by decide) rfl rfl

/-! ## Guest checkout (`GuestCheckoutService`, `src/services/emailService.js`,
and the guest cart routes of `src/routes/guest.js`) -/

/-- Errors thrown by the guest checkout paths. -/
inductive GuestError
  | cartNotFound
  | cartEmpty
  | missingFields
  | invalidEmail
  | invalidPhone
  | eventNotFound
  | required
  | orderNotFound
  deriving DecidableEq, Inhabited

/-- JavaScript `x || d` on a nullable number: `null`/`undefined` and `0` are
falsy. -/
def jsOrQ (a : Option Rat) (d : Rat) : Rat :=
  match a with
  | none => d
  | some x => if x = 0 then d else x

/-- JavaScript `x || d` on a nullable count: `null`/`undefined` and `0` are
falsy. -/
def jsOrN (a : Option Nat) (d : Nat) : Nat :=
  match a with
  | none => d
  | some x => if x = 0 then d else x

/-- JavaScript `x || d` on a nullable string: `null`/`undefined` and the
empty string are falsy. -/
def jsOrS (a : Option String) (d : String) : String :=
  match a with
  | none => d
  | some x => if x = "" then d else x

/-- JavaScript `x || d` on a plain number: `0` is falsy. -/
def jsTruthyQ (x d : Rat) : Rat := if x = 0 then d else x

/-- JavaScript `q || 1` on a plain count (`cartItem.quantity || 1`). -/
def jsNatOr1 (q : Nat) : Nat := if q = 0 then 1 else q

/-- `JSON.stringify` of a list of seat-id strings, stored verbatim in the
`seat_numbers` column. -/
def seatListJson (l : List String) : String :=
  "[" ++ String.intercalate "," (l.map fun x => "\"" ++ x ++ "\"") ++ "]"

/-- A character admitted by the `[^\s@]` classes of the email regex. -/
def emailChar (c : Char) : Bool := !c.isWhitespace && c != '@'

/-- The email check `/^[^\s@]+@[^\s@]+\.[^\s@]+$/` of
`completeGuestCheckout`: exactly one `@`, a nonempty whitespace-free local
part, and a nonempty whitespace-free domain containing a dot that is neither
its first nor its last character. -/
def validEmail (s : String) : Bool :=
  let cs := s.data
  let localPart := cs.takeWhile fun c => c != '@'
  let domainPart := (cs.dropWhile fun c => c != '@').drop 1
  cs.count '@' == 1 && !localPart.isEmpty && localPart.all emailChar &&
    !domainPart.isEmpty && domainPart.all emailChar &&
    ((domainPart.drop 1).dropLast).contains '.'

/-- A character admitted by the `[\d\s\-()]` class of the phone regex. -/
def phoneBodyChar (c : Char) : Bool :=
  c.isDigit || c == '-' || c == '(' || c == ')' || c.isWhitespace

/-- The Zimbabwe phone check of `completeGuestCheckout`:
`/^(?:\+263|0)[\d\s\-()]{7,}$/` applied to the phone with spaces removed. -/
def validZimGuestPhone (s : String) : Bool :=
  match s.data.filter (fun c => !c.isWhitespace) with
  | '+' :: '2' :: '6' :: '3' :: rest =>
    decide (7 ≤ rest.length) && rest.all phoneBodyChar
  | '0' :: rest => decide (7 ≤ rest.length) && rest.all phoneBodyChar
  | _ => false

/-- Upper-case hexadecimal digit for a value below 16. -/
def hexDigitUpper (n : Nat) : Char :=
  if n < 10 then Char.ofNat (48 + n) else Char.ofNat (55 + n)

/-- `generateConfirmationCode` (emailService.js lines 1446-1451):
`crypto.randomBytes(6).toString('hex').toUpperCase()` — the six random bytes
are a parameter, each rendered as two upper-case hex digits. -/
def generateConfirmationCode (bytes : List (Fin 256)) : String :=
  String.mk (bytes.flatMap fun b =>
    [hexDigitUpper (b.val / 16), hexDigitUpper (b.val % 16)])

/-- `GuestCheckoutService.createGuestCart` (lines 881-905): inserts an
active guest cart with no `total_amount` yet, expiring in 24 hours. -/
def createGuestCart (s : AppState) (cartId now : Nat) : AppState × Nat :=
  ({ s with shoppingCarts := s.shoppingCarts ++
      [{ id := cartId
         user_id := none
         is_guest := true
         status := .active
         total_amount := none
         expires_at := now + 24 * 60 * 60 * 1000 }] }, cartId)

/-- `POST /api/guest/cart/:cartId/add` (guest.js lines 64-149): verifies the
guest cart and the event, inserts an item row with
`unitPrice = price || event.min_price || 0`, `quantity || 1` and
`total_price = unitPrice * quantity`, then stores the recomputed cart
total. -/
def addGuestCartItem (s : AppState) (cartId itemId eventId : Nat)
    (seat_ids : Option (List String)) (ticket_type : Option String)
    (quantity : Option Nat) (price : Option Rat) :
    Except GuestError AppState :=
  match s.shoppingCarts.find? (fun c =>
      decide (c.id = cartId ∧ c.is_guest = true)) with
  | none => .error .cartNotFound
  | some _ =>
    match findEvent s eventId with
    | none => .error .eventNotFound
    | some ev =>
      let unitPrice := jsOrQ price (jsOrQ ev.min_price 0)
      let q := jsOrN quantity 1
      let totalPrice := unitPrice * (q : Rat)
      let item : CartItem :=
        { id := itemId
          cart_id := cartId
          event_id := eventId
          seat_numbers := match seat_ids with
            | some l => if l.isEmpty then none else some (seatListJson l)
            | none => none
          ticket_type := jsOrS ticket_type "standard"
          quantity := q
          unit_price := unitPrice
          total_price := totalPrice }
      let items' := s.cartItems ++ [item]
      let total := ((items'.filter fun it =>
        decide (it.cart_id = cartId)).map fun it => it.total_price).sum
      .ok { s with
            cartItems := items'
            shoppingCarts := s.shoppingCarts.map fun c =>
              if c.id = cartId then { c with total_amount := some total }
              else c }

/-- The per-item ticket expansion of `completeGuestCheckout` (emailService.js
lines 1101-1118): `quantity || 1` tickets, each carrying
`price: cartItem.total_price || cartItem.price || 0` — the item's line
total, falling back over the absent `price` column to 0 — and, because the
database row holds `seat_numbers` as a raw JSON string (never an array),
each ticket receives that whole string as its `seat_number`. -/
def guestTicketsForItem (it : CartItem) : List Ticket :=
  List.replicate (jsNatOr1 it.quantity)
    { event_id := it.event_id
      order_id := none
      ticket_type := it.ticket_type
      price := some (jsTruthyQ it.total_price 0)
      status := "confirmed"
      seat_number := match it.seat_numbers with
        | none => none
        | some str => if str = "" then none else some str
      user_id := none }

/-- The billing blob handed to `completeGuestCheckout`; the source tolerates
camelCase and snake_case spellings and falls back to `''`, modelled as one
canonical field each. -/
structure GuestBilling where
  email : String := ""
  firstName : String := ""
  lastName : String := ""
  phone : String := ""
  deriving DecidableEq, Inhabited

/-- Response body of `completeGuestCheckout`. -/
structure GuestCompleteResult where
  confirmationCode : String
  ticketsCreated : Nat
  totalAmount : Rat
  email : String
  deriving DecidableEq, Inhabited

/-- `GuestCheckoutService.completeGuestCheckout` (lines 1044-1155): loads
the guest cart and its items, validates the billing fields, generates a
confirmation code, computes `subtotal` from the items' line totals and
`totalAmount = subtotal + subtotal * 0.08`, creates the tickets, and marks
the cart `completed`.  It inserts no row into the `orders` table and the
created tickets carry no `order_id`. -/
def completeGuestCheckout (s : AppState) (cartId : Nat) (b : GuestBilling)
    (codeBytes : List (Fin 256)) :
    Except GuestError (AppState × GuestCompleteResult) :=
  match s.shoppingCarts.find? (fun c => decide (c.id = cartId)) with
  | none => .error .cartNotFound
  | some cart =>
    if !cart.is_guest then .error .cartNotFound
    else
      let items := s.cartItems.filter fun it => decide (it.cart_id = cartId)
      if items.isEmpty then .error .cartEmpty
      else if b.email = "" ∨ b.firstName = "" ∨ b.lastName = "" then
        .error .missingFields
      else if !validEmail b.email then .error .invalidEmail
      else if b.phone = "" ∨ !validZimGuestPhone b.phone then
        .error .invalidPhone
      else
        let confirmationCode := generateConfirmationCode codeBytes
        let subtotal := (items.map fun it => it.total_price).sum
        let taxAmount := subtotal * (8 / 100)
        let totalAmount := subtotal + taxAmount
        let newTickets := items.flatMap guestTicketsForItem
        .ok ({ s with
               tickets := s.tickets ++ newTickets
               shoppingCarts := s.shoppingCarts.map fun c =>
                 if c.id = cartId then { c with status := CartStatus.completed }
                 else c },
             { confirmationCode := confirmationCode
               ticketsCreated := newTickets.length
               totalAmount := totalAmount
               email := b.email })

/-- Response body of `getGuestTickets`. -/
structure GuestTicketsView where
  orderId : Nat
  confirmationCode : Option String
  totalAmount : Rat
  ticketCount : Nat
  deriving DecidableEq, Inhabited

/-- `GuestCheckoutService.getGuestTickets` (lines 1163-1223), the
`getTicketsByEmailAndCode` retrieval surface: requires both inputs, looks up
a guest order by lower-cased email and upper-cased confirmation code, and
returns the order's total with its tickets. -/
def getGuestTickets (s : AppState) (email confirmationCode : String) :
    Except GuestError GuestTicketsView :=
  if email = "" ∨ confirmationCode = "" then .error .required
  else
    match s.orders.find? (fun o => decide (o.is_guest = true ∧
        o.guest_email = some email.toLower ∧
        o.confirmation_code = some confirmationCode.toUpper)) with
    | none => .error .orderNotFound
    | some order =>
      .ok { orderId := order.id
            confirmationCode := order.confirmation_code
            totalAmount := order.total_amount
            ticketCount := (s.tickets.filter fun t =>
              decide (t.order_id = some order.id)).length }

/-! ## C5: the guest round-trip -/

/-- Valid billing data for the C5 round-trip. -/
def c5Billing : GuestBilling :=
  { email := "guest@example.com", firstName := "Ada", lastName := "Lovelace",
    phone := "0771234567" }

/-- The six random bytes drawn for the confirmation code, hex `ABCD12345678`. -/
def c5Bytes : List (Fin 256) := [171, 205, 18, 52, 86, 120]

/-- `createGuestCart()`: guest cart 10 over a store holding event 1. -/
def c5Start : AppState := (createGuestCart { events := [{ id := 1 }] } 10 0).1

/-- `addItem(event 1, qty = 2, price = 15)` on the guest cart. -/
def c5Carted : AppState :=
  (addGuestCartItem c5Start 10 20 1 none none (some 2)
    (some 15)).toOption.getD default

/-- `completeGuestCheckout(billing)` on the populated guest cart. -/
def c5Complete : Except GuestError (AppState × GuestCompleteResult) :=
  completeGuestCheckout c5Carted 10 c5Billing c5Bytes

/-- The store after the guest checkout completes. -/
def c5Final : AppState := (c5Complete.toOption.getD default).1

/-- The guest checkout's response. -/
def c5Res : GuestCompleteResult := (c5Complete.toOption.getD default).2

/-- C5: the guest round-trip `createGuestCart` → add one item with
quantity 2 and unit price 15 → `completeGuestCheckout` with valid billing
data succeeds, returning the 12-hex-uppercase confirmation code
`ABCD12345678`, exactly 2 tickets, and `totalAmount = 30 × 1.08`; but the
code the claim requires to be retrievable is not: `completeGuestCheckout`
never inserts an `orders` row, so `getTicketsByEmailAndCode` with the
guest's email and that code fails with "Order not found" instead of
returning the 2 tickets. -/
theorem guest_roundtrip_code_bug :
    c5Complete.isOk = true ∧
    c5Res.confirmationCode = "ABCD12345678" ∧
    c5Res.ticketsCreated = 2 ∧
    c5Res.totalAmount = 30 + 30 * (8 / 100) ∧
    c5Final.orders = [] ∧
    getGuestTickets c5Final "guest@example.com" "ABCD12345678" =
      .error GuestError.orderNotFound := by
  refine ⟨rfl, rfl, rfl, ?_, rfl, rfl⟩
  show (15 * ((2 : Nat) : Rat) + 0) + (15 * ((2 : Nat) : Rat) + 0) * (8 / 100) =
    30 + 30 * (8 / 100)
  norm_num

/-! ## C10: guest ticket prices carry the line total -/

/-- C10: every guest cart item of quantity `q ≥ 1` and line total `q × p`
expands to exactly `q` tickets, each carrying price `q × p` (the item's
`total_price`, not the unit price `p`), so the ticket prices for the item
sum to `q² × p`; and a successful `completeGuestCheckout` appends exactly
these per-item expansions to the tickets table. -/
theorem guest_ticket_price_is_line_total
    (it : CartItem) (p : Rat) (hq : 1 ≤ it.quantity)
    (hp : it.total_price = (it.quantity : Rat) * p) :
    (guestTicketsForItem it).length = it.quantity ∧
    (∀ t ∈ guestTicketsForItem it, t.price = some ((it.quantity : Rat) * p)) ∧
    ((guestTicketsForItem it).map fun t => t.price.getD 0).sum =
      ((it.quantity : Rat)) ^ 2 * p ∧
    (∀ s cartId b codeBytes s' r,
      completeGuestCheckout s cartId b codeBytes = .ok (s', r) →
      s'.tickets = s.tickets ++ (s.cartItems.filter fun x =>
        decide (x.cart_id = cartId)).flatMap guestTicketsForItem) := by
  have hq0 : it.quantity ≠ 0 := by omega
  have hcnt : jsNatOr1 it.quantity = it.quantity := by
    unfold jsNatOr1
    rw [if_neg hq0]
  have hpr : jsTruthyQ it.total_price 0 = it.total_price := by
    unfold jsTruthyQ
    by_cases h : it.total_price = 0
    · rw [if_pos h, h]
    · rw [if_neg h]
  refine ⟨?_, ?_, ?_, ?_⟩
  · unfold guestTicketsForItem
    rw [hcnt, List.length_replicate]
  · intro t ht
    unfold guestTicketsForItem at ht
    rw [List.eq_of_mem_replicate ht]
    dsimp only
    rw [hpr, hp]
  · unfold guestTicketsForItem
    rw [hcnt, List.map_replicate]
    dsimp only
    rw [List.sum_replicate, hpr, hp, Option.getD_some, nsmul_eq_mul]
    ring
  · intro s cartId b codeBytes s' r h
    unfold completeGuestCheckout at h
    cases hfc : s.shoppingCarts.find? (fun c => decide (c.id = cartId)) with
    | none => rw [hfc] at h; cases h
    | some cart =>
      rw [hfc] at h
      dsimp only at h
      by_cases hg : (!cart.is_guest) = true
      · rw [if_pos hg] at h; cases h
      · rw [if_neg hg] at h
        by_cases he : (List.filter (fun it =>
            decide (it.cart_id = cartId)) s.cartItems).isEmpty = true
        · rw [if_pos he] at h; cases h
        · rw [if_neg he] at h
          by_cases hm : b.email = "" ∨ b.firstName = "" ∨ b.lastName = ""
          · rw [if_pos hm] at h; cases h
          · rw [if_neg hm] at h
            by_cases hve : (!validEmail b.email) = true
            · rw [if_pos hve] at h; cases h
            · rw [if_neg hve] at h
              by_cases hph : b.phone = "" ∨ (!validZimGuestPhone b.phone) = true
              · rw [if_pos hph] at h; cases h
              · rw [if_neg hph] at h
                cases h
                rfl

/-- The concrete guest cart item for the C10 witness: quantity 2, unit
price 15, line total 30. -/
def c10Item : CartItem :=
  { id := 20, cart_id := 10, event_id := 1, quantity := 2, unit_price := 15,
    total_price := 30 }

/-- Witness for C10 at the concrete quantity-2 item. -/
theorem guest_ticket_price_is_line_total_witness :
    (guestTicketsForItem c10Item).length = c10Item.quantity ∧
    (∀ t ∈ guestTicketsForItem c10Item,
      t.price = some ((c10Item.quantity : Rat) * 15)) ∧
    ((guestTicketsForItem c10Item).map fun t => t.price.getD 0).sum =
      ((c10Item.quantity : Rat)) ^ 2 * 15 ∧
    (∀ s cartId b codeBytes s' r,
      completeGuestCheckout s cartId b codeBytes = .ok (s', r) →
      s'.tickets = s.tickets ++ (s.cartItems.filter fun x =>
        decide (x.cart_id = cartId)).flatMap guestTicketsForItem) :=
  guest_ticket_price_is_line_total c10Item 15 (by decide) (by norm_num [c10Item])

/-! ## Fraud gate (`src/services/zimPaymentService.js`) -/

/-- One entry of `GATEWAY_CONFIG` (the columns the fraud checks read). -/
structure GatewayCfg where
  minAmount : Rat
  maxAmount : Rat
  fee : Rat
  deriving DecidableEq, Inhabited

/-- `GATEWAY_CONFIG` (zimPaymentService.js lines 11-52): the four Zimbabwe
payment methods with their amount bands and fees. -/
def gatewayConfig (method : String) : Option GatewayCfg :=
  if method = "ecocash" then
    some { minAmount := 1, maxAmount := 5000, fee := 5 / 100 }
  else if method = "innbucks" then
    some { minAmount := 1, maxAmount := 10000, fee := 4 / 100 }
  else if method = "telecash" then
    some { minAmount := 1, maxAmount := 5000, fee := 6 / 100 }
  else if method = "zimswitch" then
    some { minAmount := 1, maxAmount := 50000, fee := 3 / 100 }
  else none

/-- `checkAmountRange` (lines 482-485): whether the amount lies within the
method's `[minAmount, maxAmount]` band; an unknown method makes the lookup
undefined and the access throw, modelled as `none`. -/
def checkAmountRange (p : Payment) : Option Bool :=
  (gatewayConfig p.payment_method).map fun cfg =>
    decide (cfg.minAmount ≤ p.amount ∧ p.amount ≤ cfg.maxAmount)

/-- `checkDeviceConsistency` (lines 524-528): stubbed to always pass. -/
def checkDeviceConsistency (_p : Payment) : Bool := true

/-- `performFraudChecks` (lines 456-475): +20 when the amount is outside the
method's band, +10 when the amount exceeds 10000, +15 when the device check
fails (it never does). -/
def performFraudChecks (p : Payment) : Option Nat :=
  (checkAmountRange p).map fun inRange =>
    (if inRange then 0 else 20) + (if p.amount > 10000 then 10 else 0) +
      (if checkDeviceConsistency p then 0 else 15)

/-- The score/verdict pair computed by `verifyPayment` (lines 272-312). -/
structure FraudVerdict where
  fraudScore : Nat
  isLegitimate : Bool
  deriving DecidableEq, Inhabited

/-- The verdict of `verifyPayment`: `isLegitimate = fraudScore < 50`. -/
def verifyPaymentVerdict (p : Payment) : Option FraudVerdict :=
  (performFraudChecks p).map fun sc =>
    { fraudScore := sc, isLegitimate := decide (sc < 50) }

/-! ## C8: fraud score monotonicity and the legitimacy cutoff -/

/-- C8: a payment whose amount lies outside its (configured) method's
`[min, max]` band always scores at least 20, and any payment scoring below
50 is reported `legitimate = true` by the verdict. -/
theorem fraud_range_contributes_and_cutoff
    (p : Payment) (cfg : GatewayCfg)
    (hcfg : gatewayConfig p.payment_method = some cfg)
    (hout : p.amount < cfg.minAmount ∨ cfg.maxAmount < p.amount) :
    (∃ sc, performFraudChecks p = some sc ∧ 20 ≤ sc) ∧
    (∀ q sc, performFraudChecks q = some sc → sc < 50 →
      verifyPaymentVerdict q = some { fraudScore := sc, isLegitimate := true }) := by
  constructor
  · have hrange : checkAmountRange p = some false := by
      unfold checkAmountRange
      rw [hcfg, Option.map_some']
      congr 1
      rw [decide_eq_false_iff_not]
      intro hin
      cases hout with
      | inl hlt => exact absurd hin.1 (not_le.mpr hlt)
      | inr hgt => exact absurd hin.2 (not_le.mpr hgt)
    have hperf : performFraudChecks p =
        some (20 + (if p.amount > 10000 then 10 else 0) +
          (if checkDeviceConsistency p then 0 else 15)) := by
      unfold performFraudChecks
      rw [hrange, Option.map_some']
      simp only [Bool.false_eq_true, if_false]
    exact ⟨_, hperf, by omega⟩
  · intro q sc hsc hlt
    unfold verifyPaymentVerdict
    rw [hsc, Option.map_some']
    rw [decide_eq_true hlt]

/-- The concrete payment for the C8 witness: 6000 ZWL over Ecocash, whose
band is `[1, 5000]`. -/
def c8Payment : Payment :=
  { id := 1, user_id := some 7, status := .completed, amount := 6000,
    payment_method := "ecocash" }

/-- Witness for C8 at the concrete out-of-band Ecocash payment. -/
theorem fraud_range_contributes_and_cutoff_witness :
    (∃ sc, performFraudChecks c8Payment = some sc ∧ 20 ≤ sc) ∧
    (∀ q sc, performFraudChecks q = some sc → sc < 50 →
      verifyPaymentVerdict q = some { fraudScore := sc, isLegitimate := true }) :=
  fraud_range_contributes_and_cutoff c8Payment
    { minAmount := 1, maxAmount := 5000, fee := 5 / 100 }
    rfl (by right; norm_num [c8Payment])

end BrooderSpec
